import Mathlib

/-
Verification of the pvxs low-level networking substrate: the `SockAddr`
address value type (src/src/util.cpp) and the UDP socket manager interface
described by the design document.

Machine integers are modelled as `Nat` with explicit reduction modulo
2^16 / 2^32 where the C++ types truncate.  The `sockaddr` union is modelled
as a structure whose fields mirror the byte layout on a little-endian
platform (family at offset 0, port at offset 2, IPv4 address / IPv6 flow
info at offset 4, IPv6 address bytes at offset 8, scope id at offset 24;
total 28 bytes).  Values stored in network byte order (`htons`/`htonl`)
are represented by the host-order integer whose little-endian bytes equal
the bytes in memory, so `htons`/`htonl` are explicit byte swaps.
-/

/-- Swap the two bytes of a 16-bit value (little-endian host to or from
network byte order). -/
def swap16 (x : Nat) : Nat := (x % 256) * 256 + (x / 256) % 256

/-- Reverse the four bytes of a 32-bit value. -/
def swap32 (x : Nat) : Nat :=
  (x % 256) * 16777216 + (x / 256 % 256) * 65536 + (x / 65536 % 256) * 256 + x / 16777216 % 256

/-- C `htons`: 16-bit host-to-network conversion (truncates like the
`unsigned short` parameter type). -/
def htons (x : Nat) : Nat := swap16 (x % 65536)

/-- C `ntohs`: 16-bit network-to-host conversion. -/
def ntohs (x : Nat) : Nat := swap16 (x % 65536)

/-- C `htonl`: 32-bit host-to-network conversion. -/
def htonl (x : Nat) : Nat := swap32 (x % 4294967296)

/-- Address family constants (Linux values). -/
def AF_UNSPEC : Nat := 0

/-- IPv4 address family constant. -/
def AF_INET : Nat := 2

/-- IPv6 address family constant. -/
def AF_INET6 : Nat := 10

/-- INADDR_ANY wildcard IPv4 host address (host order). -/
def INADDR_ANY : Nat := 0

/-- INADDR_LOOPBACK = 127.0.0.1 (host order). -/
def INADDR_LOOPBACK : Nat := 0x7f000001

/-- IN6ADDR_ANY_INIT: the 16 zero bytes of `::`. -/
def in6addr_any : List Nat := List.replicate 16 0

/-- IN6ADDR_LOOPBACK_INIT: the 16 bytes of `::1`. -/
def in6addr_loopback : List Nat := List.replicate 15 0 ++ [1]

/-- sizeof(sockaddr_in) on the modelled platform. -/
def sizeof_sockaddr_in : Nat := 16

/-- sizeof(sockaddr_in6) on the modelled platform. -/
def sizeof_sockaddr_in6 : Nat := 28

/-- sizeof of the `store` union (its largest member is `sockaddr_in6`). -/
def sizeof_storage : Nat := 28

/-- The `store` union of `SockAddr`: a `sockaddr` / `sockaddr_in` /
`sockaddr_in6` overlay.  `sin_port` models the two bytes at offset 2
(shared by `sin_port` and `sin6_port`); `sin_addr` models the four bytes
at offset 4 (`sin_addr.s_addr` for IPv4, `sin6_flowinfo` for IPv6), stored
in network byte order and represented by the little-endian integer value
of those bytes. -/
structure Store where
  sa_family : Nat
  sin_port : Nat
  sin_addr : Nat
  sin6_addr : List Nat
  sin6_scope_id : Nat
deriving DecidableEq, Repr

/-- memset(&store, 0, sizeof(store)) followed by `store.sa.sa_family = af`
(the `sa_family_t` field is 16 bits wide). -/
def Store.zeroed (af : Nat) : Store :=
  { sa_family := af % 65536
    sin_port := 0
    sin_addr := 0
    sin6_addr := List.replicate 16 0
    sin6_scope_id := 0 }

/-- Copy the low `min w (len - off)` bytes of the `w`-byte little-endian
field at byte offset `off` from `src` over `dst`: models the part of a
`memcpy` of `len` bytes that lands in this field. -/
def copyField (off w : Nat) (dst src len : Nat) : Nat :=
  let k := min w (len - off)
  src % 256 ^ k + 256 ^ k * (dst / 256 ^ k)

/-- Copy the first `len - off` of the byte list at offset `off` from `src`
over `dst` (the 16 `sin6_addr` bytes live at offset 8). -/
def copyBytes (off : Nat) (dst src : List Nat) (len : Nat) : List Nat :=
  let k := min dst.length (len - off)
  src.take k ++ dst.drop k

/-- memcpy(&store, addr, len) at the granularity of the modelled fields. -/
def memcpyStore (dst src : Store) (len : Nat) : Store :=
  { sa_family := copyField 0 2 dst.sa_family src.sa_family len
    sin_port := copyField 2 2 dst.sin_port src.sin_port len
    sin_addr := copyField 4 4 dst.sin_addr src.sin_addr len
    sin6_addr := copyBytes 8 dst.sin6_addr src.sin6_addr len
    sin6_scope_id := copyField 24 4 dst.sin6_scope_id src.sin6_scope_id len }

/-- The exceptions thrown by the `SockAddr` member functions in
src/src/util.cpp, by their meaning in the design document. -/
inductive SockErr where
  /-- std::invalid_argument "Unsupported address family" -/
  | invalidAddressFamily
  /-- std::invalid_argument "Truncated Address" -/
  | truncatedAddress
  /-- std::logic_error "SockAddr: set family before port" -/
  | familyNotSet
  /-- std::runtime_error "Unable to parse as IP addresss" -/
  | addressParseError
deriving DecidableEq, Repr

/-- The `SockAddr` value type: a wrapper around the `store` union. -/
structure SockAddr where
  store : Store
deriving DecidableEq, Repr

/-- Whether a fallible constructor produced a value. -/
def exceptOk {α : Type} : Except SockErr α → Bool
  | Except.ok _ => true
  | Except.error _ => false

/-- SockAddr::SockAddr(int af): zero the store, set the family, and throw
`invalid_argument` unless the family is AF_INET, AF_INET6 or AF_UNSPEC. -/
def SockAddr.ofFamily (af : Nat) : Except SockErr SockAddr :=
  if af = AF_INET ∨ af = AF_INET6 ∨ af = AF_UNSPEC then
    Except.ok ⟨Store.zeroed af⟩
  else
    Except.error SockErr.invalidAddressFamily

/-- The family dispatch of SockAddr::size(): sizeof(store.in) for AF_INET,
sizeof(store.in6) for AF_INET6, sizeof(store) otherwise. -/
def familySize (af : Nat) : Nat :=
  if af = AF_INET then sizeof_sockaddr_in
  else if af = AF_INET6 then sizeof_sockaddr_in6
  else sizeof_storage

/-- SockAddr::size(). -/
def SockAddr.size (s : SockAddr) : Nat := familySize s.store.sa_family

/-- SockAddr::SockAddr(const sockaddr *addr, ev_socklen_t len): delegate to
SockAddr(addr->sa_family), then throw "Truncated Address" when `len < 0`
or `len > size()`, else `memcpy(&store, addr, len)`.  `ev_socklen_t` may be
signed, hence `len : Int`. -/
def SockAddr.ofSockaddr (addr : Store) (len : Int) : Except SockErr SockAddr :=
  match SockAddr.ofFamily addr.sa_family with
  | Except.error e => Except.error e
  | Except.ok base =>
    if len < 0 ∨ len > (base.size : Int) then
      Except.error SockErr.truncatedAddress
    else
      Except.ok ⟨memcpyStore base.store addr len.toNat⟩

/-- SockAddr::port(): ntohs of the family's port field, 0 for other
families. -/
def SockAddr.port (s : SockAddr) : Nat :=
  if s.store.sa_family = AF_INET then ntohs s.store.sin_port
  else if s.store.sa_family = AF_INET6 then ntohs s.store.sin_port
  else 0

/-- SockAddr::setPort(unsigned short): store htons(port) in the family's
port field; for any other family throw `logic_error` before any mutation,
so the pair returns the unchanged value together with the error. -/
def SockAddr.setPort (s : SockAddr) (port : Nat) : SockAddr × Option SockErr :=
  if s.store.sa_family = AF_INET then
    (⟨{ s.store with sin_port := htons port }⟩, none)
  else if s.store.sa_family = AF_INET6 then
    (⟨{ s.store with sin_port := htons port }⟩, none)
  else
    (s, some SockErr.familyNotSet)

/-- SockAddr::isAny(). -/
def SockAddr.isAny (s : SockAddr) : Bool :=
  if s.store.sa_family = AF_INET then s.store.sin_addr == htonl INADDR_ANY
  else if s.store.sa_family = AF_INET6 then s.store.sin6_addr == in6addr_any
  else false

/-- SockAddr::isLO(). -/
def SockAddr.isLO (s : SockAddr) : Bool :=
  if s.store.sa_family = AF_INET then s.store.sin_addr == htonl INADDR_LOOPBACK
  else if s.store.sa_family = AF_INET6 then s.store.sin6_addr == in6addr_loopback
  else false

/-- SockAddr::any(int af, unsigned port): construct for the family, then
fill the wildcard host bytes and htons(port); throw `invalid_argument` for
families other than AF_INET / AF_INET6. -/
def SockAddr.any (af : Nat) (port : Nat) : Except SockErr SockAddr :=
  match SockAddr.ofFamily af with
  | Except.error e => Except.error e
  | Except.ok ret =>
    if af = AF_INET then
      Except.ok ⟨{ ret.store with sin_addr := htonl INADDR_ANY, sin_port := htons port }⟩
    else if af = AF_INET6 then
      Except.ok ⟨{ ret.store with sin6_addr := in6addr_any, sin_port := htons port }⟩
    else
      Except.error SockErr.invalidAddressFamily

/-- SockAddr::loopback(int af, unsigned port). -/
def SockAddr.loopback (af : Nat) (port : Nat) : Except SockErr SockAddr :=
  match SockAddr.ofFamily af with
  | Except.error e => Except.error e
  | Except.ok ret =>
    if af = AF_INET then
      Except.ok ⟨{ ret.store with sin_addr := htonl INADDR_LOOPBACK, sin_port := htons port }⟩
    else if af = AF_INET6 then
      Except.ok ⟨{ ret.store with sin6_addr := in6addr_loopback, sin_port := htons port }⟩
    else
      Except.error SockErr.invalidAddressFamily

/-- Digit test on characters, as used by the literal parser model. -/
def isDigitChar (c : Char) : Bool := decide ('0' ≤ c) && decide (c ≤ '9')

/-- Numeric value of a decimal digit character. -/
def digitVal (c : Char) : Nat := c.toNat - 48

/-- Parse a nonempty all-digit character list as a decimal number. -/
def parseDecimal (s : List Char) : Option Nat :=
  match s with
  | [] => none
  | _ =>
    if s.all isDigitChar then
      some (s.foldl (fun acc c => 10 * acc + digitVal c) 0)
    else none

/-- Split a character list on a separator character. -/
def splitOnChar (sep : Char) (s : List Char) : List (List Char) :=
  s.foldr
    (fun c acc =>
      match acc with
      | [] => [[c]]
      | cur :: rest => if c = sep then [] :: cur :: rest else (c :: cur) :: rest)
    [[]]

/-- Parse a dotted-quad IPv4 literal; the result is the `s_addr` value as
stored in memory (network byte order, read as a little-endian integer). -/
def parseIPv4 (host : List Char) : Option Nat :=
  match splitOnChar '.' host with
  | [a, b, c, d] =>
    match parseDecimal a, parseDecimal b, parseDecimal c, parseDecimal d with
    | some x, some y, some z, some w =>
      if x ≤ 255 ∧ y ≤ 255 ∧ z ≤ 255 ∧ w ≤ 255 then
        some (x + 256 * y + 65536 * z + 16777216 * w)
      else none
    | _, _, _, _ => none
  | _ => none

/-- Modelled from the spec: `setAddress` delegates literal parsing to the
OS name/address resolution routine `evutil_parse_sockaddr_port`, which is
library code outside this repository.  Per the spec it "parses a combined
'host[:port]' or bare host string"; the model covers literal IPv4
endpoints and produces the family-tagged binary endpoint the routine
writes back: family AF_INET, the host bytes, and the explicit port in
network byte order, the port field staying 0 when the string carries no
explicit port. -/
def evutil_parse_sockaddr_port (name : List Char) : Option Store :=
  match splitOnChar ':' name with
  | [host] =>
    match parseIPv4 host with
    | some a =>
      some { sa_family := AF_INET, sin_port := htons 0, sin_addr := a
             sin6_addr := List.replicate 16 0, sin6_scope_id := 0 }
    | none => none
  | [host, portPart] =>
    match parseIPv4 host, parseDecimal portPart with
    | some a, some p =>
      if p ≤ 65535 then
        some { sa_family := AF_INET, sin_port := htons p, sin_addr := a
               sin6_addr := List.replicate 16 0, sin6_scope_id := 0 }
      else none
    | _, _ => none
  | _ => none

/-- SockAddr::setAddress(const char *name, unsigned short port): parse into
a temporary, apply the default port when the parsed port is 0, and assign
to `*this` only as the final statement; a throw therefore leaves the
target unchanged, which the pair's first component records. -/
def SockAddr.setAddressRun (self : SockAddr) (name : List Char) (port : Nat) :
    SockAddr × Option SockErr :=
  match evutil_parse_sockaddr_port name with
  | none => (self, some SockErr.addressParseError)
  | some st =>
    let temp : SockAddr := ⟨st⟩
    if temp.port = 0 then
      match temp.setPort port with
      | (t2, none) => (t2, none)
      | (_, some e) => (self, some e)
    else (temp, none)

/-- An unspecified-family address, as built by the default constructor. -/
def addrUnspec : SockAddr := ⟨Store.zeroed AF_UNSPEC⟩

/-- A sample IPv4 address value (10.0.0.5, port 0). -/
def addrInetSample : SockAddr :=
  ⟨{ sa_family := 2, sin_port := 0, sin_addr := 83886090
     sin6_addr := List.replicate 16 0, sin6_scope_id := 0 }⟩

/-- A sample raw IPv4 `sockaddr` as received from the OS
(1.2.3.4 port 0x1234 in network order). -/
def rawInetExample : Store :=
  { sa_family := 2, sin_port := 4660, sin_addr := 16909060
    sin6_addr := List.replicate 16 0, sin6_scope_id := 0 }

theorem swap16_lt (p : Nat) : swap16 p < 65536 := by
  unfold swap16; omega

theorem swap16_swap16 (p : Nat) (h : p < 65536) : swap16 (swap16 p) = p := by
  unfold swap16
  have hb : p / 256 < 256 := by omega
  rw [Nat.mod_eq_of_lt hb]
  have h2 : (p % 256 * 256 + p / 256) % 256 = p / 256 := by omega
  have h3 : (p % 256 * 256 + p / 256) / 256 = p % 256 := by omega
  rw [h2, h3]
  omega

theorem ntohs_htons (p : Nat) : ntohs (htons p) = p % 65536 := by
  unfold ntohs htons
  rw [Nat.mod_eq_of_lt (swap16_lt _), swap16_swap16 _ (Nat.mod_lt _ (by omega))]

/-- Every endpoint produced by the (modelled) literal parser is tagged
AF_INET. -/
theorem parse_sa_family (name : List Char) (st : Store)
    (h : evutil_parse_sockaddr_port name = some st) : st.sa_family = AF_INET := by
  unfold evutil_parse_sockaddr_port at h
  split at h
  · split at h
    · simp only [Option.some.injEq] at h; subst h; rfl
    · exact absurd h (by simp)
  · split at h
    · split at h
      · simp only [Option.some.injEq] at h; subst h; rfl
      · exact absurd h (by simp)
    · exact absurd h (by simp)
  · exact absurd h (by simp)

theorem setAddressRun_of_parse_none (a : SockAddr) (name : List Char) (d : Nat)
    (h : evutil_parse_sockaddr_port name = none) :
    a.setAddressRun name d = (a, some SockErr.addressParseError) := by
  unfold SockAddr.setAddressRun
  rw [h]

theorem setAddressRun_of_parse_zero (a : SockAddr) (name : List Char) (d : Nat) (st : Store)
    (h : evutil_parse_sockaddr_port name = some st) (h0 : SockAddr.port ⟨st⟩ = 0) :
    a.setAddressRun name d = (⟨{ st with sin_port := htons d }⟩, none) := by
  have hf := parse_sa_family name st h
  unfold SockAddr.setAddressRun
  rw [h]
  simp only [h0, if_pos]
  unfold SockAddr.setPort
  simp [hf]

theorem setAddressRun_of_parse_nonzero (a : SockAddr) (name : List Char) (d : Nat) (st : Store)
    (h : evutil_parse_sockaddr_port name = some st) (h0 : SockAddr.port ⟨st⟩ ≠ 0) :
    a.setAddressRun name d = (⟨st⟩, none) := by
  unfold SockAddr.setAddressRun
  rw [h]
  simp [h0]

/-- Port lookup after an in-range port was stored on an IPv4 endpoint. -/
theorem port_mk_sin_port (st : Store) (d : Nat) (hf : st.sa_family = AF_INET) :
    SockAddr.port ⟨{ st with sin_port := htons d }⟩ = d % 65536 := by
  unfold SockAddr.port
  simp [hf, ntohs_htons]

/-- Modelled from the spec: one Socket Entry of the UDP Manager
(udp_collector is not under src/): "one OS UDP socket bound to exactly one
local Address, plus its current listener set and reference count". -/
structure SocketEntry where
  addr : SockAddr
  sock_open : Bool
  listeners : List Nat
  refcount : Nat
deriving DecidableEq, Repr

/-- Modelled from the spec: the UDP Manager registry, "a mapping from
Address to Socket Entry (keys unique)", together with a count of the
OS-level bind operations performed so far (used to state that subscribing
to an already-bound Address performs no new bind). -/
structure UDPManager where
  entries : List SocketEntry
  binds : Nat
deriving DecidableEq, Repr

/-- The manager before any subscription. -/
def UDPManager.empty : UDPManager := { entries := [], binds := 0 }

/-- Modelled from the spec: `subscribe(local_address, callback)`.
Transition Absent → Bound: "first subscribe to an Address creates the OS
socket, binds it, sets refcount=1".  Transition Bound → Bound: "subsequent
subscribes to the same Address increment refcount and append a listener;
no new OS socket is created". -/
def UDPManager.subscribe (m : UDPManager) (a : SockAddr) (l : Nat) : UDPManager :=
  if m.entries.any (fun e => decide (e.addr = a)) then
    { m with entries := m.entries.map (fun e =>
        if e.addr = a then
          { e with refcount := e.refcount + 1, listeners := e.listeners ++ [l] }
        else e) }
  else
    { entries := m.entries ++ [{ addr := a, sock_open := true, listeners := [l], refcount := 1 }]
      binds := m.binds + 1 }

/-- Modelled from the spec: `unsubscribe(handle)` "removes the callback,
decrements refcount"; "last unsubscribe (refcount reaches 0) closes the OS
socket and removes the registry entry". -/
def UDPManager.unsubscribe (m : UDPManager) (a : SockAddr) (l : Nat) : UDPManager :=
  { m with entries := (m.entries.map (fun e =>
      if e.addr = a then
        { e with refcount := e.refcount - 1, listeners := e.listeners.erase l }
      else e)).filter (fun e => decide (0 < e.refcount)) }

/-- The states of the UDP Manager reachable through its operations. -/
inductive UDPManager.Reachable : UDPManager → Prop
  | empty : UDPManager.Reachable UDPManager.empty
  | subscribe (m : UDPManager) (a : SockAddr) (l : Nat) :
      UDPManager.Reachable m → UDPManager.Reachable (m.subscribe a l)
  | unsubscribe (m : UDPManager) (a : SockAddr) (l : Nat) :
      UDPManager.Reachable m → UDPManager.Reachable (m.unsubscribe a l)

/-- The registry invariant: keys unique, and every present entry has an
open OS socket and a positive reference count. -/
def UDPManager.Inv (m : UDPManager) : Prop :=
  m.entries.Pairwise (fun e1 e2 => e1.addr ≠ e2.addr) ∧
  ∀ e ∈ m.entries, e.sock_open = true ∧ 0 < e.refcount

theorem subscribe_preserves_inv (m : UDPManager) (a : SockAddr) (l : Nat)
    (h : m.Inv) : (m.subscribe a l).Inv := by
  obtain ⟨hpw, hent⟩ := h
  have haddr : ∀ e : SocketEntry,
      ((if e.addr = a then
          { e with refcount := e.refcount + 1, listeners := e.listeners ++ [l] }
        else e) : SocketEntry).addr = e.addr := by
    intro e; by_cases h0 : e.addr = a <;> simp [h0]
  unfold UDPManager.subscribe
  split
  · refine ⟨?_, ?_⟩
    · refine (List.pairwise_map).2 (hpw.imp ?_)
      intro e1 e2 hne
      rw [haddr e1, haddr e2]
      exact hne
    · intro e he
      rcases List.mem_map.1 he with ⟨e0, he0, rfl⟩
      rcases hent e0 he0 with ⟨ho, hr⟩
      by_cases h0 : e0.addr = a <;> simp [h0, ho, hr]
  · case isFalse hany =>
    have hnot : ∀ e ∈ m.entries, e.addr ≠ a := by
      intro e he heq
      exact hany (List.any_eq_true.2 ⟨e, he, by simp [heq]⟩)
    refine ⟨?_, ?_⟩
    · refine List.pairwise_append.2 ⟨hpw, List.pairwise_singleton _ _, ?_⟩
      intro e1 h1 e2 h2
      simp only [List.mem_singleton] at h2
      subst h2
      simpa using hnot e1 h1
    · intro e he
      rcases List.mem_append.1 he with h1 | h1
      · exact hent e h1
      · simp only [List.mem_singleton] at h1
        subst h1
        exact ⟨rfl, Nat.zero_lt_one⟩

theorem unsubscribe_preserves_inv (m : UDPManager) (a : SockAddr) (l : Nat)
    (h : m.Inv) : (m.unsubscribe a l).Inv := by
  obtain ⟨hpw, hent⟩ := h
  unfold UDPManager.unsubscribe
  have haddr : ∀ e : SocketEntry,
      ((if e.addr = a then
          { e with refcount := e.refcount - 1, listeners := e.listeners.erase l }
        else e) : SocketEntry).addr = e.addr := by
    intro e; by_cases h0 : e.addr = a <;> simp [h0]
  refine ⟨?_, ?_⟩
  · refine List.Pairwise.filter _ ?_
    refine (List.pairwise_map).2 (hpw.imp ?_)
    intro e1 e2 hne
    rw [haddr e1, haddr e2]
    exact hne
  · intro e he
    have hmem := List.mem_of_mem_filter he
    have hkeep := List.of_mem_filter he
    rcases List.mem_map.1 hmem with ⟨e0, he0, rfl⟩
    rcases hent e0 he0 with ⟨ho, _⟩
    constructor
    · by_cases h0 : e0.addr = a <;> simp [h0, ho]
    · simpa using hkeep

theorem reachable_inv (m : UDPManager) (h : m.Reachable) : m.Inv := by
  induction h with
  | empty => exact ⟨List.Pairwise.nil, by intro e he; cases he⟩
  | subscribe m a l _ ih => exact subscribe_preserves_inv m a l ih
  | unsubscribe m a l _ ih => exact unsubscribe_preserves_inv m a l ih

/-- Subscribing to an Address that already has an entry performs no OS
bind, keeps the registry's address list unchanged, and bumps the matching
entry (refcount + 1, listener appended). -/
theorem subscribe_existing (m : UDPManager) (a : SockAddr) (l : Nat)
    (h : m.entries.any (fun e => decide (e.addr = a)) = true) :
    (m.subscribe a l).binds = m.binds ∧
    (m.subscribe a l).entries.map SocketEntry.addr = m.entries.map SocketEntry.addr ∧
    ∀ e ∈ m.entries, e.addr = a →
      { e with refcount := e.refcount + 1, listeners := e.listeners ++ [l] }
        ∈ (m.subscribe a l).entries := by
  unfold UDPManager.subscribe
  rw [if_pos h]
  refine ⟨rfl, ?_, ?_⟩
  · rw [List.map_map]
    refine List.map_congr_left ?_
    intro e _
    by_cases h0 : e.addr = a <;> simp [h0]
  · intro e he h0
    have hm : ({ e with refcount := e.refcount + 1, listeners := e.listeners ++ [l] }
        : SocketEntry) ∈ List.map (fun e =>
          if e.addr = a then
            { e with refcount := e.refcount + 1, listeners := e.listeners ++ [l] }
          else e) m.entries := by
      refine List.mem_map.2 ⟨e, he, ?_⟩
      rw [if_pos h0]
    exact hm

/-- Claim C1, counterexample: constructing from a raw AF_INET endpoint
with length 4 — strictly less than the 16 bytes the family requires —
succeeds instead of failing with TruncatedAddress. -/
theorem C1_counterexample :
    exceptOk (SockAddr.ofSockaddr rawInetExample 4) = true
  ∧ (4 : Int) < (familySize AF_INET : Int) := by
  constructor
  · decide
  · decide

/-- Claim C1 (amended): for every family in {IPv4, IPv6, Unspecified},
construction from a raw family-tagged endpoint fails with TruncatedAddress
only for a negative length or one exceeding the family's maximum binary
size; every length from 0 up to that size is accepted, including lengths
smaller than the family's required size. -/
theorem C1_amended_raw_length (raw : Store) (len : Int)
    (hfam : raw.sa_family = AF_INET ∨ raw.sa_family = AF_INET6 ∨ raw.sa_family = AF_UNSPEC)
    (h0 : 0 ≤ len) (hle : len ≤ (familySize raw.sa_family : Int)) :
    exceptOk (SockAddr.ofSockaddr raw len) = true := by
  rcases hfam with h | h | h <;>
    (simp only [SockAddr.ofSockaddr, SockAddr.ofFamily, h] at hle ⊢) <;>
    (norm_num [AF_INET, AF_INET6, AF_UNSPEC, SockAddr.size, familySize, Store.zeroed,
      sizeof_sockaddr_in, sizeof_sockaddr_in6, sizeof_storage] at hle ⊢) <;>
    (rw [if_neg (by omega)]) <;> rfl

/-- Claim C1 amended, witness: an AF_INET6 endpoint with length 20 (below
the 28 bytes the family requires) is accepted. -/
theorem C1_amended_witness :
    exceptOk (SockAddr.ofSockaddr
      { sa_family := 10, sin_port := 0, sin_addr := 0
        sin6_addr := List.replicate 16 0, sin6_scope_id := 0 } 20) = true :=
  C1_amended_raw_length
    { sa_family := 10, sin_port := 0, sin_addr := 0
      sin6_addr := List.replicate 16 0, sin6_scope_id := 0 } 20
    (Or.inr (Or.inl (by decide))) (by decide) (by decide)

/-- Claim C2: for every raw endpoint whose deduced family is IPv4, IPv6 or
Unspecified, construction fails with TruncatedAddress when the given
length is negative or exceeds the family's maximum binary size. -/
theorem C2_raw_length_validation (raw : Store) (len : Int)
    (hfam : raw.sa_family = AF_INET ∨ raw.sa_family = AF_INET6 ∨ raw.sa_family = AF_UNSPEC)
    (hlen : len < 0 ∨ len > (familySize raw.sa_family : Int)) :
    SockAddr.ofSockaddr raw len = Except.error SockErr.truncatedAddress := by
  rcases hfam with h | h | h <;>
    (simp only [SockAddr.ofSockaddr, SockAddr.ofFamily, h] at hlen ⊢) <;>
    (norm_num [AF_INET, AF_INET6, AF_UNSPEC, SockAddr.size, familySize, Store.zeroed,
      sizeof_sockaddr_in, sizeof_sockaddr_in6, sizeof_storage] at hlen ⊢) <;>
    (intro h1 h2) <;> omega

/-- Claim C2, witness: an AF_INET endpoint with length 17 (above the
16-byte maximum for the family) is rejected as truncated. -/
theorem C2_witness :
    SockAddr.ofSockaddr rawInetExample 17 = Except.error SockErr.truncatedAddress :=
  C2_raw_length_validation rawInetExample 17 (Or.inl (by decide)) (Or.inr (by decide))

/-- Claim C3, counterexample: "10.0.0.5:0" is a parseable literal endpoint
string carrying the explicit port 0, yet setAddress with default 5076
yields port 5076, not the explicit 0. -/
theorem C3_counterexample :
    (evutil_parse_sockaddr_port ("10.0.0.5:0".toList)).isSome = true
  ∧ (addrUnspec.setAddressRun ("10.0.0.5:0".toList) 5076).1.port = 5076 := by
  constructor
  · decide
  · decide

/-- Claim C3 (amended): for every parseable literal IP endpoint string,
setAddress(name, default_port) sets the port to the explicit port written
in the string when a nonzero one is present, and to default_port when the
string carries no explicit port (or an explicit 0); in particular
setAddress("10.0.0.5", 5076) yields port 5076 and
setAddress("10.0.0.5:9000", 5076) yields port 9000. -/
theorem C3_amended_port_selection (a : SockAddr) (name : List Char) (d : Nat) (st : Store)
    (hp : evutil_parse_sockaddr_port name = some st) (hd : d < 65536) :
    (SockAddr.port ⟨st⟩ ≠ 0 →
      (a.setAddressRun name d).1.port = SockAddr.port ⟨st⟩
      ∧ (a.setAddressRun name d).2 = none)
  ∧ (SockAddr.port ⟨st⟩ = 0 →
      (a.setAddressRun name d).1.port = d
      ∧ (a.setAddressRun name d).2 = none) := by
  constructor
  · intro h0
    rw [setAddressRun_of_parse_nonzero a name d st hp h0]
    exact ⟨rfl, rfl⟩
  · intro h0
    rw [setAddressRun_of_parse_zero a name d st hp h0]
    refine ⟨?_, rfl⟩
    rw [port_mk_sin_port st d (parse_sa_family name st hp)]
    exact Nat.mod_eq_of_lt hd

/-- Claim C3 amended, witness: the two concrete examples from the spec. -/
theorem C3_amended_witness :
    (addrUnspec.setAddressRun ("10.0.0.5".toList) 5076).1.port = 5076
  ∧ (addrUnspec.setAddressRun ("10.0.0.5:9000".toList) 5076).1.port = 9000 := by
  constructor
  · exact ((C3_amended_port_selection addrUnspec ("10.0.0.5".toList) 5076
      addrInetSample.store (by decide) (by decide)).2 (by decide)).1
  · have h := ((C3_amended_port_selection addrUnspec ("10.0.0.5:9000".toList) 5076
      { sa_family := 2, sin_port := 10275, sin_addr := 83886090
        sin6_addr := List.replicate 16 0, sin6_scope_id := 0 }
      (by decide) (by decide)).1 (by decide)).1
    rw [h]
    decide

/-- Claim C9: setAddress cannot distinguish an explicitly written port 0
from an absent port; "10.0.0.5:0" parses to the same raw endpoint as
"10.0.0.5", and for every parseable string whose parsed port is 0 the
resulting port equals default_port. -/
theorem C9_explicit_zero_port (a : SockAddr) (name : List Char) (d : Nat) (st : Store)
    (hp : evutil_parse_sockaddr_port name = some st) (h0 : SockAddr.port ⟨st⟩ = 0)
    (hd : d < 65536) :
    (a.setAddressRun name d).1.port = d
  ∧ evutil_parse_sockaddr_port ("10.0.0.5:0".toList)
      = evutil_parse_sockaddr_port ("10.0.0.5".toList) := by
  constructor
  · rw [setAddressRun_of_parse_zero a name d st hp h0,
      port_mk_sin_port st d (parse_sa_family name st hp)]
    exact Nat.mod_eq_of_lt hd
  · decide

/-- Claim C9, witness: "10.0.0.5:0" with default port 9 yields port 9. -/
theorem C9_witness :
    (addrInetSample.setAddressRun ("10.0.0.5:0".toList) 9).1.port = 9 :=
  (C9_explicit_zero_port addrInetSample ("10.0.0.5:0".toList) 9
    addrInetSample.store (by decide) (by decide) (by decide)).1

/-- Claim C8: setAddress is atomic on failure; when the string does not
parse as a literal IP endpoint the call reports AddressParseError and the
target Address is exactly what it was before the call (the parse goes into
a temporary, assigned to the target only on success). -/
theorem C8_setAddress_atomic_on_failure (a : SockAddr) (name : List Char) (d : Nat)
    (h : evutil_parse_sockaddr_port name = none) :
    a.setAddressRun name d = (a, some SockErr.addressParseError) :=
  setAddressRun_of_parse_none a name d h

/-- Claim C8, witness: a non-parseable host name leaves the target
address untouched and reports the parse error. -/
theorem C8_witness :
    addrInetSample.setAddressRun ("pvxs.example".toList) 5076
      = (addrInetSample, some SockErr.addressParseError) :=
  C8_setAddress_atomic_on_failure addrInetSample ("pvxs.example".toList) 5076 (by decide)

/-- Claim C5: constructing an Address from a bare family succeeds exactly
for IPv4, IPv6 and Unspecified and fails with InvalidAddressFamily for
every other family; any(family, port) and loopback(family, port) succeed
exactly for IPv4 and IPv6 and fail with InvalidAddressFamily for every
other family, including Unspecified. -/
theorem C5_family_validation (af p : Nat) :
    (if af = AF_INET ∨ af = AF_INET6 ∨ af = AF_UNSPEC
      then exceptOk (SockAddr.ofFamily af) = true
      else SockAddr.ofFamily af = Except.error SockErr.invalidAddressFamily)
  ∧ (if af = AF_INET ∨ af = AF_INET6
      then exceptOk (SockAddr.any af p) = true ∧ exceptOk (SockAddr.loopback af p) = true
      else SockAddr.any af p = Except.error SockErr.invalidAddressFamily
        ∧ SockAddr.loopback af p = Except.error SockErr.invalidAddressFamily) := by
  constructor
  · unfold SockAddr.ofFamily
    split
    · rfl
    · rfl
  · split
    case isTrue h =>
      rcases h with h | h <;> subst h <;> exact ⟨rfl, rfl⟩
    case isFalse h =>
      push_neg at h
      obtain ⟨h2, h10⟩ := h
      by_cases h0 : af = AF_UNSPEC
      · subst h0; exact ⟨rfl, rfl⟩
      · have hno : ¬(af = AF_INET ∨ af = AF_INET6 ∨ af = AF_UNSPEC) := by tauto
        unfold SockAddr.any SockAddr.loopback SockAddr.ofFamily
        simp [if_neg hno]

/-- Claim C6: setPort on an Address without a concrete IPv4/IPv6 family
fails with FamilyNotSet leaving the Address unchanged; on an IPv4 or IPv6
Address with any 16-bit port p it succeeds and a subsequent port() returns
p. -/
theorem C6_setPort_dispatch (s : SockAddr) (p : Nat) :
    ((s.store.sa_family ≠ AF_INET ∧ s.store.sa_family ≠ AF_INET6) →
      s.setPort p = (s, some SockErr.familyNotSet))
  ∧ ((s.store.sa_family = AF_INET ∨ s.store.sa_family = AF_INET6) → p < 65536 →
      (s.setPort p).2 = none ∧ ((s.setPort p).1).port = p) := by
  constructor
  · intro h
    obtain ⟨h2, h10⟩ := h
    unfold SockAddr.setPort
    rw [if_neg h2, if_neg h10]
  · intro hf hp
    unfold SockAddr.setPort SockAddr.port
    rcases hf with h | h <;>
      simp [h, AF_INET, AF_INET6, ntohs_htons, Nat.mod_eq_of_lt hp]

/-- Claim C6, witness: setPort fails on the unspecified address and
round-trips port 9000 on an IPv4 address. -/
theorem C6_witness :
    addrUnspec.setPort 7 = (addrUnspec, some SockErr.familyNotSet)
  ∧ (addrInetSample.setPort 9000).2 = none
  ∧ ((addrInetSample.setPort 9000).1).port = 9000 := by
  refine ⟨(C6_setPort_dispatch addrUnspec 7).1 ⟨by decide, by decide⟩, ?_⟩
  exact (C6_setPort_dispatch addrInetSample 9000).2 (Or.inl (by decide)) (by decide)

/-- Claim C7: for IPv4 and IPv6 and every port, any(family, port)
satisfies isAny() and loopback(family, port) satisfies isLO(). -/
theorem C7_any_loopback_predicates (p : Nat) :
    (SockAddr.any AF_INET p).map SockAddr.isAny = Except.ok true
  ∧ (SockAddr.any AF_INET6 p).map SockAddr.isAny = Except.ok true
  ∧ (SockAddr.loopback AF_INET p).map SockAddr.isLO = Except.ok true
  ∧ (SockAddr.loopback AF_INET6 p).map SockAddr.isLO = Except.ok true := by
  refine ⟨rfl, rfl, ?_, ?_⟩
  · have h : SockAddr.loopback AF_INET p = Except.ok
        ⟨{ Store.zeroed AF_INET with sin_addr := htonl INADDR_LOOPBACK, sin_port := htons p }⟩ :=
      rfl
    rw [h]
    simp only [Except.map]
    unfold SockAddr.isLO
    simp [Store.zeroed, AF_INET]
  · have h : SockAddr.loopback AF_INET6 p = Except.ok
        ⟨{ Store.zeroed AF_INET6 with sin6_addr := in6addr_loopback, sin_port := htons p }⟩ :=
      rfl
    rw [h]
    simp only [Except.map]
    unfold SockAddr.isLO
    simp [Store.zeroed, AF_INET, AF_INET6]

/-- Claim C10: for every Address whose family is neither IPv4 nor IPv6,
port() returns 0 rather than failing. -/
theorem C10_port_default_zero (s : SockAddr)
    (h2 : s.store.sa_family ≠ AF_INET) (h10 : s.store.sa_family ≠ AF_INET6) :
    s.port = 0 := by
  unfold SockAddr.port
  rw [if_neg h2, if_neg h10]

/-- Claim C10, witness: port() of the unspecified address is 0. -/
theorem C10_witness : addrUnspec.port = 0 :=
  C10_port_default_zero addrUnspec (by decide) (by decide)

/-- Claim C4: in every reachable UDP Manager state there is at most one
Socket Entry per distinct local Address, every present entry has an open
OS socket and a positive reference count, and subscribing to an Address
that already has an entry performs no new OS bind, keeps the set of bound
Addresses unchanged, and only increments the matching entry's refcount and
appends the listener. -/
theorem C4_socket_sharing_invariant (m : UDPManager) (hm : m.Reachable) :
    m.entries.Pairwise (fun e1 e2 => e1.addr ≠ e2.addr)
  ∧ (∀ e ∈ m.entries, e.sock_open = true ∧ 0 < e.refcount)
  ∧ ∀ a l, m.entries.any (fun e => decide (e.addr = a)) = true →
      (m.subscribe a l).binds = m.binds
      ∧ (m.subscribe a l).entries.map SocketEntry.addr = m.entries.map SocketEntry.addr
      ∧ ∀ e ∈ m.entries, e.addr = a →
          { e with refcount := e.refcount + 1, listeners := e.listeners ++ [l] }
            ∈ (m.subscribe a l).entries := by
  obtain ⟨h1, h2⟩ := reachable_inv m hm
  exact ⟨h1, h2, fun a l h => subscribe_existing m a l h⟩

/-- Claim C4, witness: after one subscribe to the sample address, a second
subscribe to the same address performs no new bind. -/
theorem C4_witness :
    (UDPManager.empty.subscribe addrInetSample 1).entries.Pairwise
      (fun e1 e2 => e1.addr ≠ e2.addr)
  ∧ ((UDPManager.empty.subscribe addrInetSample 1).subscribe addrInetSample 2).binds
      = (UDPManager.empty.subscribe addrInetSample 1).binds := by
  have h := C4_socket_sharing_invariant (UDPManager.empty.subscribe addrInetSample 1)
    (UDPManager.Reachable.subscribe UDPManager.empty addrInetSample 1 UDPManager.Reachable.empty)
  exact ⟨h.1, (h.2.2 addrInetSample 2 (by decide)).1⟩
